import Mathlib

/-!
Verification of the cursor-pagination core of `nestjs-api-dx`
(`packages/nestjs-typeorm-cursor-pagination`).

The development shallowly embeds the TypeScript sources:

* `lib/pagination/cursor.ts` (`Cursor`): base64 over UTF-8 text codec
  (Node's `Buffer.from(v).toString('base64')` /
  `Buffer.from(v, 'base64').toString('utf8')`).
* `lib/pagination/paginate.ts` (`paginate`, `getCursorWhereClause`,
  `getCounts`, `getEdges`, `getPageInfo`): the pagination engine, modelled
  over an explicit query-builder state (`QB`) whose data source is a list
  of rows; TypeORM's `where`/`andWhere`/`orderBy`/`take`/`getMany`/
  `getCount` are given list semantics, and SQL comparisons against a NULL
  bound are false (three-valued logic collapsed to the WHERE filter).
* `lib/query-builder/where-builder.ts` (`WhereBuilder`) and
  `lib/query-builder/join-builder.ts` (`JoinBuilder`): the filter
  expression compiler.  JavaScript value semantics (truthiness, `.length`
  access on non-arrays, string+number concatenation) are modelled
  explicitly by `FilterValue` and its helpers.

Machine numbers are `Nat`/`Int` (no overflow is reachable in the
embedded code paths); JavaScript `null`/`undefined` are `Option`;
`throw` is `Except.error`.
-/

/-! ## JavaScript primitives -/

/-- Truthiness of an optional JS number (`undefined`, `null` and `0` are
falsy). -/
def jsTruthyNat (v : Option Nat) : Bool :=
  match v with
  | some n => n ≠ 0
  | none => false

/-- Truthiness of an optional JS string (`undefined`, `null` and `''` are
falsy). -/
def jsTruthyStr (v : Option String) : Bool :=
  match v with
  | some s => s ≠ ""
  | none => false

/-- `String.prototype.split` with a one-character separator, on the
character list.  Always returns at least one (possibly empty) piece. -/
def splitChar (sep : Char) : List Char → List (List Char)
  | [] => [[]]
  | c :: cs =>
    let rest := splitChar sep cs
    if c = sep then [] :: rest
    else match rest with
      | [] => [[c]]
      | p :: ps => (c :: p) :: ps

/-- `s.split(sep)` for a one-character separator, as JS does it. -/
def jsSplit (s : String) (sep : Char) : List String :=
  (splitChar sep s.data).map List.asString

/-! ## UTF-8 (Node `Buffer.from(s)` / `buf.toString('utf8')`) -/

/-- UTF-8 encoding of one code point. -/
def utf8EncodeCp (v : Nat) : List Nat :=
  if v < 0x80 then [v]
  else if v < 0x800 then [0xC0 + v / 64, 0x80 + v % 64]
  else if v < 0x10000 then
    [0xE0 + v / 4096, 0x80 + v / 64 % 64, 0x80 + v % 64]
  else
    [0xF0 + v / 262144, 0x80 + v / 4096 % 64, 0x80 + v / 64 % 64, 0x80 + v % 64]

/-- UTF-8 encoding of a code-point sequence. -/
def utf8Encode (cps : List Nat) : List Nat :=
  cps.flatMap utf8EncodeCp

/-- Is `b` a UTF-8 continuation byte? -/
def isContByte (b : Nat) : Bool := 0x80 ≤ b && b < 0xC0

/-- UTF-8 decoding of a byte sequence back to code points (`none` on
malformed input). -/
def utf8Decode : List Nat → Option (List Nat)
  | [] => some []
  | b0 :: bs =>
    if b0 < 0x80 then (utf8Decode bs).map (b0 :: ·)
    else if b0 < 0xC0 then none
    else if b0 < 0xF8 then
      match bs with
      | [] => none
      | b1 :: bs1 =>
        if b0 < 0xE0 then
          if isContByte b1 then
            (utf8Decode bs1).map (((b0 - 0xC0) * 64 + (b1 - 0x80)) :: ·)
          else none
        else
          match bs1 with
          | [] => none
          | b2 :: bs2 =>
            if b0 < 0xF0 then
              if isContByte b1 && isContByte b2 then
                (utf8Decode bs2).map
                  (((b0 - 0xE0) * 4096 + (b1 - 0x80) * 64 + (b2 - 0x80)) :: ·)
              else none
            else
              match bs2 with
              | [] => none
              | b3 :: bs3 =>
                if isContByte b1 && isContByte b2 && isContByte b3 then
                  (utf8Decode bs3).map
                    (((b0 - 0xF0) * 262144 + (b1 - 0x80) * 4096 +
                      (b2 - 0x80) * 64 + (b3 - 0x80)) :: ·)
                else none
    else none

/-! ## Base64 (RFC 4648, the alphabet Node uses) -/

/-- The base64 alphabet. -/
def b64Chars : List Char :=
  "ABCDEFGHIJKLMNOPQRSTUVWXYZabcdefghijklmnopqrstuvwxyz0123456789+/".data

/-- Sextet value to base64 character. -/
def encodeSextet (n : Nat) : Char := b64Chars.getD n 'A'

/-- Base64 character back to its sextet value. -/
def decodeSextet (c : Char) : Option Nat := b64Chars.findIdx? (· = c)

/-- Base64 encoding of a byte sequence, with `=` padding. -/
def base64Encode : List Nat → List Char
  | [] => []
  | [b0] => [encodeSextet (b0 / 4), encodeSextet (b0 % 4 * 16), '=', '=']
  | [b0, b1] =>
    [encodeSextet (b0 / 4), encodeSextet (b0 % 4 * 16 + b1 / 16),
      encodeSextet (b1 % 16 * 4), '=']
  | b0 :: b1 :: b2 :: rest =>
    encodeSextet (b0 / 4) :: encodeSextet (b0 % 4 * 16 + b1 / 16) ::
      encodeSextet (b1 % 16 * 4 + b2 / 64) :: encodeSextet (b2 % 64) ::
        base64Encode rest

/-- Base64 decoding (`none` on malformed input). -/
def base64Decode : List Char → Option (List Nat)
  | [] => some []
  | c0 :: c1 :: c2 :: c3 :: rest =>
    match decodeSextet c0, decodeSextet c1 with
    | some s0, some s1 =>
      if c2 = '=' then
        if c3 = '=' ∧ rest = [] then some [s0 * 4 + s1 / 16] else none
      else
        match decodeSextet c2 with
        | some s2 =>
          if c3 = '=' then
            if rest = [] then some [s0 * 4 + s1 / 16, s1 % 16 * 16 + s2 / 4]
            else none
          else
            match decodeSextet c3 with
            | some s3 =>
              (base64Decode rest).map
                (fun bs => (s0 * 4 + s1 / 16) :: (s1 % 16 * 16 + s2 / 4) ::
                  (s2 % 4 * 64 + s3) :: bs)
            | none => none
        | none => none
    | _, _ => none
  | _ => none

/-! ## The `Cursor` class (`lib/pagination/cursor.ts`) -/

/-- `Cursor` stores the raw constructor value and the column id. -/
structure Cursor where
  value : String
  columnId : String

/-- `Cursor.encode`: `Buffer.from(this.cursor).toString('base64')`. -/
def Cursor.encode (c : Cursor) : String :=
  (base64Encode (utf8Encode (c.value.data.map Char.toNat))).asString

/-- `Cursor.decode`: `Buffer.from(this.cursor, 'base64').toString('utf8')`.
Malformed input yields garbage in Node; the model collapses it to `""`. -/
def Cursor.decode (c : Cursor) : String :=
  match (base64Decode c.value.data).bind utf8Decode with
  | some cps => (cps.map Char.ofNat).asString
  | none => ""

example : (Cursor.mk "abc" "id").encode = "YWJj" := by decide
example : (Cursor.mk "YWJj" "id").decode = "abc" := by decide

/-! ## Codec round-trip lemmas -/

theorem decodeSextet_encodeSextet :
    ∀ n < 64, decodeSextet (encodeSextet n) = some n := by decide

theorem encodeSextet_ne_pad : ∀ n < 64, encodeSextet n ≠ '=' := by decide

theorem base64Decode_two_pad (c0 c1 : Char) (s0 s1 : Nat)
    (h0 : decodeSextet c0 = some s0) (h1 : decodeSextet c1 = some s1) :
    base64Decode [c0, c1, '=', '='] = some [s0 * 4 + s1 / 16] := by
  simp [base64Decode, h0, h1]

theorem base64Decode_one_pad (c0 c1 c2 : Char) (s0 s1 s2 : Nat)
    (h0 : decodeSextet c0 = some s0) (h1 : decodeSextet c1 = some s1)
    (h2 : decodeSextet c2 = some s2) (h2ne : c2 ≠ '=') :
    base64Decode [c0, c1, c2, '='] =
      some [s0 * 4 + s1 / 16, s1 % 16 * 16 + s2 / 4] := by
  simp [base64Decode, h0, h1, h2, h2ne]

theorem base64Decode_quad (c0 c1 c2 c3 : Char) (rest : List Char)
    (s0 s1 s2 s3 : Nat)
    (h0 : decodeSextet c0 = some s0) (h1 : decodeSextet c1 = some s1)
    (h2 : decodeSextet c2 = some s2) (h3 : decodeSextet c3 = some s3)
    (h2ne : c2 ≠ '=') (h3ne : c3 ≠ '=') :
    base64Decode (c0 :: c1 :: c2 :: c3 :: rest) =
      (base64Decode rest).map
        (fun bs => (s0 * 4 + s1 / 16) :: (s1 % 16 * 16 + s2 / 4) ::
          (s2 % 4 * 64 + s3) :: bs) := by
  simp [base64Decode, h0, h1, h2, h3, h2ne, h3ne]

/-- Base64 decoding inverts base64 encoding on byte sequences. -/
theorem base64_round_trip :
    ∀ bs : List Nat, (∀ b ∈ bs, b < 256) →
      base64Decode (base64Encode bs) = some bs := by
  intro bs
  induction bs using base64Encode.induct with
  | case1 => intro _; rfl
  | case2 b0 =>
    intro h
    have hb0 : b0 < 256 := h b0 (by simp)
    rw [base64Encode,
      base64Decode_two_pad _ _ _ _
        (decodeSextet_encodeSextet (b0 / 4) (by omega))
        (decodeSextet_encodeSextet (b0 % 4 * 16) (by omega))]
    simp only [Option.some.injEq, List.cons.injEq, and_true]
    omega
  | case3 b0 b1 =>
    intro h
    have hb0 : b0 < 256 := h b0 (by simp)
    have hb1 : b1 < 256 := h b1 (by simp)
    rw [base64Encode,
      base64Decode_one_pad _ _ _ _ _ _
        (decodeSextet_encodeSextet (b0 / 4) (by omega))
        (decodeSextet_encodeSextet (b0 % 4 * 16 + b1 / 16) (by omega))
        (decodeSextet_encodeSextet (b1 % 16 * 4) (by omega))
        (encodeSextet_ne_pad (b1 % 16 * 4) (by omega))]
    simp only [Option.some.injEq, List.cons.injEq, and_true]
    omega
  | case4 b0 b1 b2 rest ih =>
    intro h
    have hb0 : b0 < 256 := h b0 (by simp)
    have hb1 : b1 < 256 := h b1 (by simp)
    have hb2 : b2 < 256 := h b2 (by simp)
    have hrest : ∀ b ∈ rest, b < 256 := fun b hb => h b (by simp [hb])
    rw [base64Encode,
      base64Decode_quad _ _ _ _ _ _ _ _ _
        (decodeSextet_encodeSextet (b0 / 4) (by omega))
        (decodeSextet_encodeSextet (b0 % 4 * 16 + b1 / 16) (by omega))
        (decodeSextet_encodeSextet (b1 % 16 * 4 + b2 / 64) (by omega))
        (decodeSextet_encodeSextet (b2 % 64) (by omega))
        (encodeSextet_ne_pad (b1 % 16 * 4 + b2 / 64) (by omega))
        (encodeSextet_ne_pad (b2 % 64) (by omega)),
      ih hrest]
    simp only [Option.map_some', Option.some.injEq, List.cons.injEq, and_true]
    omega

/-- Decoding the UTF-8 bytes of one code point prepends it. -/
theorem utf8Decode_encodeCp (v : Nat) (hv : v < 0x110000) (tail : List Nat) :
    utf8Decode (utf8EncodeCp v ++ tail) = (utf8Decode tail).map (v :: ·) := by
  unfold utf8EncodeCp
  by_cases h1 : v < 0x80
  · rw [if_pos h1]
    simp only [List.cons_append, List.nil_append]
    rw [utf8Decode.eq_def]
    simp only [if_pos h1]
  · by_cases h2 : v < 0x800
    · rw [if_neg h1, if_pos h2]
      simp only [List.cons_append, List.nil_append]
      rw [utf8Decode.eq_def]
      have c1 : ¬(0xC0 + v / 64 < 0x80) := by omega
      have c2 : ¬(0xC0 + v / 64 < 0xC0) := by omega
      have c2b : 0xC0 + v / 64 < 0xF8 := by omega
      have c3 : 0xC0 + v / 64 < 0xE0 := by omega
      have c4 : isContByte (0x80 + v % 64) = true := by
        simp only [isContByte, Bool.and_eq_true, decide_eq_true_eq]
        omega
      simp only [c4, if_neg c1, if_neg c2, if_pos c2b, if_pos c3, if_true]
      have e : (0xC0 + v / 64 - 0xC0) * 64 + (0x80 + v % 64 - 0x80) = v := by
        omega
      rw [e]
    · by_cases h3 : v < 0x10000
      · rw [if_neg h1, if_neg h2, if_pos h3]
        simp only [List.cons_append, List.nil_append]
        rw [utf8Decode.eq_def]
        have c1 : ¬(0xE0 + v / 4096 < 0x80) := by omega
        have c2 : ¬(0xE0 + v / 4096 < 0xC0) := by omega
        have c2b : 0xE0 + v / 4096 < 0xF8 := by omega
        have c3 : ¬(0xE0 + v / 4096 < 0xE0) := by omega
        have c4 : 0xE0 + v / 4096 < 0xF0 := by omega
        have c5 : (isContByte (0x80 + v / 64 % 64) &&
            isContByte (0x80 + v % 64)) = true := by
          simp only [isContByte, Bool.and_eq_true, decide_eq_true_eq]
          omega
        simp only [c5, if_neg c1, if_neg c2, if_pos c2b, if_neg c3, if_pos c4,
          if_true]
        have e : (0xE0 + v / 4096 - 0xE0) * 4096 +
            (0x80 + v / 64 % 64 - 0x80) * 64 + (0x80 + v % 64 - 0x80) = v := by
          omega
        rw [e]
      · rw [if_neg h1, if_neg h2, if_neg h3]
        simp only [List.cons_append, List.nil_append]
        rw [utf8Decode.eq_def]
        have c1 : ¬(0xF0 + v / 262144 < 0x80) := by omega
        have c2 : ¬(0xF0 + v / 262144 < 0xC0) := by omega
        have c2b : 0xF0 + v / 262144 < 0xF8 := by omega
        have c3 : ¬(0xF0 + v / 262144 < 0xE0) := by omega
        have c4 : ¬(0xF0 + v / 262144 < 0xF0) := by omega
        have c6 : (isContByte (0x80 + v / 4096 % 64) &&
            isContByte (0x80 + v / 64 % 64) &&
            isContByte (0x80 + v % 64)) = true := by
          simp only [isContByte, Bool.and_eq_true, decide_eq_true_eq]
          omega
        simp only [c6, if_neg c1, if_neg c2, if_pos c2b, if_neg c3, if_neg c4,
          if_true]
        have e : (0xF0 + v / 262144 - 0xF0) * 262144 +
            (0x80 + v / 4096 % 64 - 0x80) * 4096 +
            (0x80 + v / 64 % 64 - 0x80) * 64 + (0x80 + v % 64 - 0x80) = v := by
          omega
        rw [e]

/-- UTF-8 decoding inverts UTF-8 encoding on code-point sequences. -/
theorem utf8_round_trip (cps : List Nat) (h : ∀ v ∈ cps, v < 0x110000) :
    utf8Decode (utf8Encode cps) = some cps := by
  induction cps with
  | nil => rfl
  | cons v rest ih =>
    have hv : v < 0x110000 := h v (by simp)
    have hrest : ∀ w ∈ rest, w < 0x110000 := fun w hw => h w (by simp [hw])
    rw [utf8Encode, List.flatMap_cons]
    rw [utf8Decode_encodeCp v hv]
    rw [show rest.flatMap utf8EncodeCp = utf8Encode rest from rfl, ih hrest]
    rfl

/-- UTF-8 bytes of in-range code points are bytes. -/
theorem utf8Encode_bytes_lt (cps : List Nat) (h : ∀ v ∈ cps, v < 0x110000) :
    ∀ b ∈ utf8Encode cps, b < 256 := by
  intro b hb
  rw [utf8Encode, List.mem_flatMap] at hb
  obtain ⟨v, hv, hbv⟩ := hb
  have hvlt : v < 0x110000 := h v hv
  revert hbv
  unfold utf8EncodeCp
  split
  · intro hbv; simp at hbv; omega
  · split
    · intro hbv; simp at hbv; rcases hbv with h' | h' <;> omega
    · split
      · intro hbv; simp at hbv; rcases hbv with h' | h' | h' <;> omega
      · intro hbv; simp at hbv; rcases hbv with h' | h' | h' | h' <;> omega

/-- The code points of a `String` are in Unicode range. -/
theorem char_toNat_lt (c : Char) : c.toNat < 0x110000 := by
  have hval := c.valid
  rcases hval with h | ⟨h1, h2⟩
  · exact Nat.lt_trans h (by norm_num)
  · exact h2

/-- Claim C5: for every string `s` — including the empty string and strings
with non-ASCII Unicode characters — decoding the cursor obtained by encoding
`s` yields `s` again: `decode(encode(s)) = s` for the cursor codec
(`lib/pagination/cursor.ts`). -/
theorem cursor_decode_encode (s : String) (col col2 : String) :
    (Cursor.mk (Cursor.mk s col).encode col2).decode = s := by
  unfold Cursor.encode Cursor.decode
  have hcps : ∀ v ∈ s.data.map Char.toNat, v < 0x110000 := by
    intro v hv
    rw [List.mem_map] at hv
    obtain ⟨c, _, rfl⟩ := hv
    exact char_toNat_lt c
  have hdata :
      (base64Encode (utf8Encode (s.data.map Char.toNat))).asString.data =
        base64Encode (utf8Encode (s.data.map Char.toNat)) := rfl
  rw [hdata]
  rw [base64_round_trip _ (utf8Encode_bytes_lt _ hcps)]
  rw [Option.some_bind, utf8_round_trip _ hcps]
  simp only [List.map_map]
  have : (Char.ofNat ∘ Char.toNat) = id := by
    funext c
    exact Char.ofNat_toNat c
  rw [this, List.map_id]
  rfl

example :
    (Cursor.mk (Cursor.mk "héllo•世界" "name").encode "name").decode =
      "héllo•世界" := by decide

/-! ## Rows and query-builder semantics

`paginate` consumes a TypeORM `SelectQueryBuilder`.  The model `QB` keeps
the builder state the embedded code touches: the data source, the WHERE
predicates (`.where` replaces, `.andWhere` appends), the ORDER BY list and
the row limit.  Entity rows expose the unique `id` plus named columns, all
string-typed (the `NodeEntity` contract). -/

/-- One entity row: the unique `id` and the remaining columns. -/
structure Row where
  id : String
  cols : List (String × String)
deriving DecidableEq

/-- Lexicographic code-point comparison of character lists (SQL text
`<`). -/
def chListLt : List Char → List Char → Bool
  | [], [] => false
  | [], _ :: _ => true
  | _ :: _, [] => false
  | a :: as, b :: bs =>
    if a.toNat < b.toNat then true
    else if b.toNat < a.toNat then false
    else chListLt as bs

/-- Lexicographic string comparison. -/
def strLt (x y : String) : Bool := chListLt x.data y.data

/-- Property access `row[c]` (`undefined` when the column is absent). -/
def Row.get (r : Row) (c : String) : Option String :=
  if c = "id" then some r.id else r.cols.lookup c

/-- TypeORM comparison operators used by `paginate`:
`LessThan` / `MoreThan`. -/
inductive CmpOp where
  | lt
  | gt
deriving DecidableEq

/-- WHERE-clause predicates built by the embedded code.  `raw` stands for
an opaque caller-supplied condition already on the query. -/
inductive WherePred where
  | cmp (col : String) (op : CmpOp) (v : Option String)
  | eqv (col : String) (v : Option String)
  | and (p q : WherePred)
  | or (p q : WherePred)
  | raw (f : Row → Bool)

/-- SQL evaluation of a predicate on a row.  A comparison or equality
against a NULL / undefined bound is never true (SQL three-valued logic
collapsed at the WHERE clause). -/
def evalWherePred : WherePred → Row → Bool
  | .cmp col op v, r =>
    match r.get col, v with
    | some a, some b =>
      match op with
      | .lt => strLt a b
      | .gt => strLt b a
    | _, _ => false
  | .eqv col v, r =>
    match r.get col, v with
    | some a, some b => a == b
    | _, _ => false
  | .and p q, r => evalWherePred p r && evalWherePred q r
  | .or p q, r => evalWherePred p r || evalWherePred q r
  | .raw f, r => f r

/-- Sort direction. -/
inductive SortOrder where
  | asc
  | desc
deriving DecidableEq

/-- `cursorColumn.split('.').length > 1 ? cursorColumn.split('.').slice(1)[0]
: cursorColumn` — the resolved column id. -/
def columnIdOf (cursorColumn : String) : String :=
  if (jsSplit cursorColumn '.').length > 1 then
    (jsSplit cursorColumn '.').getD 1 ""
  else cursorColumn

/-- Query-builder state. -/
structure QB where
  src : List Row
  wheres : List WherePred := []
  orderBys : List (String × SortOrder) := []
  takeN : Option Nat := none

/-- `.where(p)` replaces the WHERE list. -/
def QB.whereP (qb : QB) (p : WherePred) : QB := { qb with wheres := [p] }

/-- `.andWhere(p)` appends to the WHERE list. -/
def QB.andWhereP (qb : QB) (p : WherePred) : QB :=
  { qb with wheres := qb.wheres ++ [p] }

/-- `.orderBy({[col]: ord})` replaces the ORDER BY list. -/
def QB.orderByP (qb : QB) (col : String) (ord : SortOrder) : QB :=
  { qb with orderBys := [(col, ord)] }

/-- `.addOrderBy(col, ord)` appends to the ORDER BY list. -/
def QB.addOrderByP (qb : QB) (col : String) (ord : SortOrder) : QB :=
  { qb with orderBys := qb.orderBys ++ [(col, ord)] }

/-- `.take(n)` sets the row limit. -/
def QB.takeP (qb : QB) (n : Nat) : QB := { qb with takeN := some n }

/-- Conjunction of all WHERE predicates on a row. -/
def QB.evalWheres (qb : QB) (r : Row) : Bool :=
  qb.wheres.all (evalWherePred · r)

/-- Three-way string comparison. -/
def cmpStr (x y : String) : Ordering :=
  if strLt x y then .lt else if strLt y x then .gt else .eq

/-- Three-way comparison of nullable column values (NULLs first; the
precise NULL placement is not load-bearing for any claim). -/
def cmpOptStr (a b : Option String) : Ordering :=
  match a, b with
  | none, none => .eq
  | none, some _ => .lt
  | some _, none => .gt
  | some x, some y => cmpStr x y

/-- `r1` sorts no later than `r2` under the ORDER BY list (column names
resolved the way TypeORM resolves `alias.column`). -/
def rowLe (obs : List (String × SortOrder)) (r1 r2 : Row) : Bool :=
  match obs with
  | [] => true
  | (col, ord) :: rest =>
    let c := cmpOptStr (r1.get (columnIdOf col)) (r2.get (columnIdOf col))
    let c := match ord with
      | .asc => c
      | .desc => c.swap
    match c with
    | .lt => true
    | .gt => false
    | .eq => rowLe rest r1 r2

/-- Insertion into a sorted list. -/
def insertRow (le : Row → Row → Bool) (r : Row) : List Row → List Row
  | [] => [r]
  | x :: xs => if le r x then r :: x :: xs else x :: insertRow le r xs

/-- Sort rows by the ORDER BY list. -/
def sortRows (obs : List (String × SortOrder)) (rows : List Row) : List Row :=
  rows.foldr (insertRow (rowLe obs)) []

/-- `.getMany()`: filter by the WHERE list, sort, apply the limit. -/
def QB.getMany (qb : QB) : List Row :=
  let filtered := qb.src.filter (fun r => qb.evalWheres r)
  let sorted := sortRows qb.orderBys filtered
  match qb.takeN with
  | some n => sorted.take n
  | none => sorted

/-- `.getCount()`: count the rows passing the WHERE list. -/
def QB.getCount (qb : QB) : Nat :=
  (qb.src.filter (fun r => qb.evalWheres r)).length

/-! ## `paginate` (`lib/pagination/paginate.ts`) -/

/-- The composite-cursor delimiter (`multiColumnDelimiter`). -/
def multiColumnDelimiter : Char := '|'

/-- `PaginationArgs` (`lib/pagination/pagination.args.ts`): all fields
optional, `reverse` defaulting to `false`. -/
structure PaginationArgs where
  after : Option String := none
  before : Option String := none
  first : Option Nat := none
  last : Option Nat := none
  reverse : Bool := false

/-- The ORDER direction `paginate` resolves: initialised from `reverse`,
overridden by the truthy `first` / `last` branches. -/
def resolvedOrder (args : PaginationArgs) : SortOrder :=
  if jsTruthyNat args.first then (if args.reverse then .desc else .asc)
  else if jsTruthyNat args.last then (if args.reverse then .asc else .desc)
  else (if args.reverse then .desc else .asc)

/-- The row limit `paginate` resolves: `first ?? last ?? 25`, overridden
in the truthy `first` / `last` branches. -/
def resolvedLimit (args : PaginationArgs) : Nat :=
  if jsTruthyNat args.first then args.first.getD 0
  else if jsTruthyNat args.last then args.last.getD 0
  else
    match args.first with
    | some n => n
    | none =>
      match args.last with
      | some m => m
      | none => 25

/-- The `Cursor` object `paginate` builds: `after` inside the truthy
`first` branch, `before` inside the truthy `last` branch. -/
def cursorOf (args : PaginationArgs) (cursorColumn : String) : Option Cursor :=
  if jsTruthyNat args.first then
    (if jsTruthyStr args.after then
      some ⟨args.after.getD "", cursorColumn⟩
    else none)
  else if jsTruthyNat args.last then
    (if jsTruthyStr args.before then
      some ⟨args.before.getD "", cursorColumn⟩
    else none)
  else none

/-- The `Brackets` expression shared by `getCursorWhereClause` and
`getCounts`: `col <op> primary`, extended for non-`id` sort columns with
`OR (col = primary AND id <op> secondary)`. -/
def bracketsWherePred (op : CmpOp) (columnId : String)
    (primary secondary : Option String) : WherePred :=
  if columnId = "id" then WherePred.cmp columnId op primary
  else
    WherePred.or (WherePred.cmp columnId op primary)
      (WherePred.and (WherePred.eqv columnId primary) (WherePred.cmp "id" op secondary))

/-- Attach the brackets expression for the chosen operator to the query:
`andWhere` when WHERE clauses already exist, `where` otherwise. -/
def attachCursorWhere (qb : QB) (columnId : String)
    (primary secondary : Option String) (findOperator : CmpOp) : QB :=
  let whereExpression :=
    bracketsWherePred findOperator columnId primary secondary
  if qb.wheres.length ≠ 0 then qb.andWhereP whereExpression
  else qb.whereP whereExpression

/-- `getCursorWhereClause`: decode the cursor, pick the comparison
operator from the mode × `reverse` table, build the brackets expression
and attach it. -/
def getCursorWhereClause (qb : QB) (cursor : Cursor) (columnId : String)
    (args : PaginationArgs) : Except String QB :=
  let offsetId := cursor.decode
  let primary : Option String :=
    if columnId = "id" then some offsetId
    else some ((jsSplit offsetId multiColumnDelimiter).getD 0 "")
  let secondary : Option String :=
    if columnId = "id" then none
    else (jsSplit offsetId multiColumnDelimiter).get? 1
  if jsTruthyNat args.first && jsTruthyStr args.after then
    .ok (attachCursorWhere qb columnId primary secondary
      (if args.reverse then CmpOp.lt else CmpOp.gt))
  else if jsTruthyNat args.last && jsTruthyStr args.before then
    .ok (attachCursorWhere qb columnId primary secondary
      (if args.reverse then CmpOp.gt else CmpOp.lt))
  else
    Except.error "Invalid cursor pagination arguments"

/-- The window query `paginate` executes: ordering, the secondary `id`
order for non-`id` sort columns, the cursor predicate, the row limit. -/
def buildWindowQuery (query : QB) (args : PaginationArgs)
    (cursorColumn : String) : Except String QB :=
  let columnId := columnIdOf cursorColumn
  let q := query.orderByP cursorColumn (resolvedOrder args)
  let q := if columnId ≠ "id" then q.addOrderByP "id" (resolvedOrder args)
    else q
  match cursorOf args cursorColumn with
  | some c =>
    match getCursorWhereClause q c columnId args with
    | .error e => .error e
    | .ok q2 => .ok (q2.takeP (resolvedLimit args))
  | none => .ok (q.takeP (resolvedLimit args))

/-- The fetched window, reversed in-memory when `last` is truthy. -/
def windowRows (query : QB) (args : PaginationArgs)
    (cursorColumn : String) : Except String (List Row) :=
  match buildWindowQuery query args cursorColumn with
  | .error e => .error e
  | .ok q =>
    .ok (if jsTruthyNat args.last then q.getMany.reverse else q.getMany)

/-- `getCounts`: the two auxiliary count queries against clones of the
caller's query, bounded by the window's first / last row. -/
def getCounts (result : List Row) (totalCountQuery : QB) (columnId : String)
    (args : PaginationArgs) : Nat × Nat :=
  let primaryStart := result.head?.bind (·.get columnId)
  let primaryEnd := result.getLast?.bind (·.get columnId)
  let secondaryStart :=
    if columnId = "id" then none else result.head?.map (·.id)
  let secondaryEnd :=
    if columnId = "id" then none else result.getLast?.map (·.id)
  let opBefore := if args.reverse then CmpOp.gt else CmpOp.lt
  let opAfter := if args.reverse then CmpOp.lt else CmpOp.gt
  let whereBefore := bracketsWherePred opBefore columnId primaryStart secondaryStart
  let whereAfter := bracketsWherePred opAfter columnId primaryEnd secondaryEnd
  let beforeQuery :=
    if totalCountQuery.wheres.length > 0 then
      totalCountQuery.andWhereP whereBefore
    else totalCountQuery.whereP whereBefore
  let afterQuery :=
    if totalCountQuery.wheres.length > 0 then
      totalCountQuery.andWhereP whereAfter
    else totalCountQuery.whereP whereAfter
  (beforeQuery.getCount, afterQuery.getCount)

/-- One edge of the connection. -/
structure Edge where
  node : Row
  cursor : String

/-- `getEdges`: per-row cursors — `encode(id)` when sorting on `id`,
`encode(col + '|' + id)` otherwise. -/
def getEdges (result : List Row) (columnId : String) : List Edge :=
  result.map fun r =>
    if columnId ≠ "id" then
      let nonIdColumn := (r.get columnId).getD "undefined"
      { node := r,
        cursor := (Cursor.mk
          (nonIdColumn ++ String.singleton multiColumnDelimiter ++ r.id)
          columnId).encode }
    else
      { node := r, cursor := (Cursor.mk r.id columnId).encode }

/-- `PageInfo` — the fields `getPageInfo` assigns. -/
structure PageInfo where
  startCursor : Option String := none
  endCursor : Option String := none
  hasPreviousPage : Bool := false
  hasNextPage : Bool := false

/-- `getPageInfo`. -/
def getPageInfo (edges : List Edge) (countBefore countAfter : Nat) :
    PageInfo :=
  { startCursor := edges.head?.map (·.cursor)
    endCursor := edges.getLast?.map (·.cursor)
    hasNextPage := decide (countAfter > 0)
    hasPreviousPage := decide (countBefore > 0) }

/-- The connection value (`IPaginatedType`). -/
structure Paginated where
  edges : List Edge
  pageInfo : PageInfo
  totalCount : Nat

/-- `paginate`: clone the caller's query for the counts, fetch the
window, compute the counts, assemble edges, page info and `totalCount`. -/
def paginate (query : QB) (args : PaginationArgs)
    (cursorColumn : String := "id") : Except String Paginated :=
  let totalCountQuery := query
  let columnId := columnIdOf cursorColumn
  match windowRows query args cursorColumn with
  | .error e => .error e
  | .ok result =>
    let counts := getCounts result totalCountQuery columnId args
    let edges := getEdges result columnId
    let pageInfo := getPageInfo edges counts.1 counts.2
    .ok { edges := edges, pageInfo := pageInfo,
          totalCount := counts.2 + counts.1 + edges.length }

/-! ## Claim theorems for the pagination engine -/

/-- Claim C1: whenever `paginate` returns a connection, its `totalCount`
equals `countBefore + countAfter + edges.length`, where `countBefore` and
`countAfter` are the results of the two auxiliary count queries;
`pageInfo.hasPreviousPage` holds exactly when `countBefore > 0` and
`pageInfo.hasNextPage` exactly when `countAfter > 0`. -/
theorem paginate_totalCount_pageInfo (query : QB) (args : PaginationArgs)
    (cursorColumn : String) (rows : List Row) (res : Paginated)
    (hw : windowRows query args cursorColumn = .ok rows)
    (hp : paginate query args cursorColumn = .ok res) :
    res.totalCount =
        (getCounts rows query (columnIdOf cursorColumn) args).1 +
          (getCounts rows query (columnIdOf cursorColumn) args).2 +
          res.edges.length
      ∧ (res.pageInfo.hasPreviousPage = true ↔
          0 < (getCounts rows query (columnIdOf cursorColumn) args).1)
      ∧ (res.pageInfo.hasNextPage = true ↔
          0 < (getCounts rows query (columnIdOf cursorColumn) args).2) := by
  unfold paginate at hp
  rw [hw] at hp
  simp only [] at hp
  cases hp
  refine ⟨by simp [getEdges]; omega, ?_, ?_⟩
  · simp [getPageInfo]
  · simp [getPageInfo]

theorem paginate_totalCount_pageInfo_witness :
    ({ edges := [⟨⟨"1", []⟩, "MQ=="⟩],
       pageInfo := ⟨some "MQ==", some "MQ==", false, true⟩,
       totalCount := 2 } : Paginated).totalCount =
        (getCounts [⟨"1", []⟩] ⟨[⟨"1", []⟩, ⟨"2", []⟩], [], [], none⟩
          (columnIdOf "id") ⟨none, none, some 1, none, false⟩).1 +
        (getCounts [⟨"1", []⟩] ⟨[⟨"1", []⟩, ⟨"2", []⟩], [], [], none⟩
          (columnIdOf "id") ⟨none, none, some 1, none, false⟩).2 + 1 := by
  have h := paginate_totalCount_pageInfo
    ⟨[⟨"1", []⟩, ⟨"2", []⟩], [], [], none⟩ ⟨none, none, some 1, none, false⟩
    "id" [⟨"1", []⟩]
    { edges := [⟨⟨"1", []⟩, "MQ=="⟩],
      pageInfo := ⟨some "MQ==", some "MQ==", false, true⟩,
      totalCount := 2 } (by rfl) (by rfl)
  exact h.1

/-- A comparison or equality predicate whose bounds are NULL holds for no
row, hence a brackets expression with NULL bounds holds for no row. -/
theorem bracketsWherePred_none_false (op : CmpOp) (colId : String)
    (r : Row) :
    evalWherePred (bracketsWherePred op colId none none) r = false := by
  unfold bracketsWherePred
  split
  · cases hg : r.get colId <;> simp [evalWherePred, hg]
  · cases hg : r.get colId <;> cases hg2 : r.get "id" <;>
      simp [evalWherePred, hg, hg2]

/-- Attaching an everywhere-false predicate (by `andWhere` or `where`,
per the source's branch) makes the count query return zero. -/
theorem getCount_with_false_pred (qb : QB) (p : WherePred)
    (hfalse : ∀ r, evalWherePred p r = false) :
    (if qb.wheres.length > 0 then qb.andWhereP p else qb.whereP p).getCount
      = 0 := by
  split
  · unfold QB.getCount QB.andWhereP QB.evalWheres
    simp only [List.length_eq_zero, List.filter_eq_nil_iff]
    intro r _
    simp [List.all_append, hfalse]
  · unfold QB.getCount QB.whereP QB.evalWheres
    simp only [List.length_eq_zero, List.filter_eq_nil_iff]
    intro r _
    simp [hfalse]

/-- Claim C6: when the window query returns zero rows both auxiliary
counts are zero, and the connection has `hasNextPage = false`,
`hasPreviousPage = false`, `totalCount = 0`, no edges and undefined
start/end cursors. -/
theorem paginate_empty_window (query : QB) (args : PaginationArgs)
    (cursorColumn : String) (res : Paginated)
    (hw : windowRows query args cursorColumn = .ok [])
    (hp : paginate query args cursorColumn = .ok res) :
    getCounts [] query (columnIdOf cursorColumn) args = (0, 0)
      ∧ res.pageInfo.hasNextPage = false
      ∧ res.pageInfo.hasPreviousPage = false
      ∧ res.totalCount = 0
      ∧ res.edges = []
      ∧ res.pageInfo.startCursor = none
      ∧ res.pageInfo.endCursor = none := by
  have hc : getCounts [] query (columnIdOf cursorColumn) args = (0, 0) := by
    unfold getCounts
    simp only [List.head?_nil, List.getLast?_nil, Option.bind_none,
      Option.none_bind, Option.map_none', ite_self]
    have h1 := getCount_with_false_pred query
      (bracketsWherePred (if args.reverse then CmpOp.gt else CmpOp.lt)
        (columnIdOf cursorColumn) none none)
      (bracketsWherePred_none_false _ _)
    have h2 := getCount_with_false_pred query
      (bracketsWherePred (if args.reverse then CmpOp.lt else CmpOp.gt)
        (columnIdOf cursorColumn) none none)
      (bracketsWherePred_none_false _ _)
    simp only [gt_iff_lt] at h1 h2 ⊢
    rw [h1, h2]
  unfold paginate at hp
  rw [hw] at hp
  simp only [] at hp
  cases hp
  refine ⟨hc, ?_, ?_, ?_, ?_, ?_, ?_⟩ <;>
    simp [getEdges, getPageInfo, hc]

theorem paginate_empty_window_witness :
    getCounts [] ⟨[], [], [], none⟩ (columnIdOf "id")
        ⟨none, none, none, none, false⟩ = (0, 0)
      ∧ ({ edges := [], pageInfo := ⟨none, none, false, false⟩,
           totalCount := 0 } : Paginated).pageInfo.hasNextPage = false := by
  have h := paginate_empty_window ⟨[], [], [], none⟩
    ⟨none, none, none, none, false⟩ "id"
    { edges := [], pageInfo := ⟨none, none, false, false⟩, totalCount := 0 }
    (by rfl) (by rfl)
  exact ⟨h.1, h.2.1⟩

/-- The comparison operator the spec's mode × reverse table prescribes:
`>` for forward (`first`+`after`) continuation and `<` reversed, flipped
for backward (`last`+`before`). -/
def specCursorOp (args : PaginationArgs) : CmpOp :=
  if jsTruthyNat args.first then
    (if args.reverse then CmpOp.lt else CmpOp.gt)
  else
    (if args.reverse then CmpOp.gt else CmpOp.lt)

/-- The cursor predicate the spec describes: the decoded value compared
directly when sorting on `id`; otherwise the decoded value split on `|`
into a primary and a secondary bound with the tie-break disjunct
`(sortCol <op> primary) OR (sortCol = primary AND id <op> secondary)`. -/
def specCursorPredicate (args : PaginationArgs) (colId dec : String) :
    WherePred :=
  if colId = "id" then WherePred.cmp "id" (specCursorOp args) (some dec)
  else
    WherePred.or
      (WherePred.cmp colId (specCursorOp args)
        (some ((jsSplit dec multiColumnDelimiter).getD 0 "")))
      (WherePred.and
        (WherePred.eqv colId
          (some ((jsSplit dec multiColumnDelimiter).getD 0 "")))
        (WherePred.cmp "id" (specCursorOp args)
          ((jsSplit dec multiColumnDelimiter).get? 1)))

/-- A constructed cursor implies one of the two valid mode pairings. -/
theorem cursorOf_some_mode (args : PaginationArgs) (col : String)
    (c : Cursor) (h : cursorOf args col = some c) :
    (jsTruthyNat args.first && jsTruthyStr args.after) = true
      ∨ ((jsTruthyNat args.first) = false
          ∧ (jsTruthyNat args.last && jsTruthyStr args.before) = true) := by
  unfold cursorOf at h
  by_cases h1 : jsTruthyNat args.first = true
  · rw [if_pos h1] at h
    by_cases h2 : jsTruthyStr args.after = true
    · exact Or.inl (by rw [h1, h2]; rfl)
    · rw [if_neg h2] at h
      exact absurd h (by simp)
  · rw [if_neg h1] at h
    by_cases h3 : jsTruthyNat args.last = true
    · rw [if_pos h3] at h
      by_cases h4 : jsTruthyStr args.before = true
      · refine Or.inr ⟨by simpa using h1, by rw [h3, h4]; rfl⟩
      · rw [if_neg h4] at h
        exact absurd h (by simp)
    · rw [if_neg h3] at h
      exact absurd h (by simp)

/-- `attachCursorWhere` always appends the brackets expression to the
WHERE list (`where` on an empty list agrees with appending). -/
theorem attachCursorWhere_wheres (qb : QB) (colId : String)
    (p s : Option String) (op : CmpOp) :
    attachCursorWhere qb colId p s op =
      { qb with wheres := qb.wheres ++ [bracketsWherePred op colId p s] } := by
  unfold attachCursorWhere
  by_cases hl : qb.wheres.length ≠ 0
  · rw [if_pos hl]
    rfl
  · rw [if_neg hl]
    have h0 : qb.wheres = [] := by simpa [List.length_eq_zero] using hl
    simp [QB.whereP, h0]

/-- The brackets expression built from the source's primary/secondary
selection equals the spec-side predicate. -/
theorem specCursorPredicate_eq_brackets (args : PaginationArgs)
    (colId dec : String) :
    bracketsWherePred (specCursorOp args) colId
        (if colId = "id" then some dec
          else some ((jsSplit dec multiColumnDelimiter).getD 0 ""))
        (if colId = "id" then none
          else (jsSplit dec multiColumnDelimiter).get? 1)
      = specCursorPredicate args colId dec := by
  unfold specCursorPredicate bracketsWherePred
  by_cases hid : colId = "id" <;> simp [hid]

/-- In either valid mode, `getCursorWhereClause` succeeds and appends
exactly the spec-side predicate. -/
theorem getCursorWhereClause_eq (qb : QB) (c : Cursor) (columnId : String)
    (args : PaginationArgs)
    (hm : (jsTruthyNat args.first && jsTruthyStr args.after) = true
      ∨ (jsTruthyNat args.first = false
          ∧ (jsTruthyNat args.last && jsTruthyStr args.before) = true)) :
    getCursorWhereClause qb c columnId args =
      .ok { qb with wheres :=
        qb.wheres ++ [specCursorPredicate args columnId c.decode] } := by
  unfold getCursorWhereClause
  rcases hm with hm | ⟨hf, hm⟩
  · have ha : jsTruthyNat args.first = true := by
      have := hm
      simp only [Bool.and_eq_true] at this
      exact this.1
    rw [if_pos hm, attachCursorWhere_wheres]
    have hop : (if args.reverse then CmpOp.lt else CmpOp.gt) =
        specCursorOp args := by
      unfold specCursorOp
      rw [ha]
      simp
    rw [hop, specCursorPredicate_eq_brackets]
  · have hg1 : (jsTruthyNat args.first && jsTruthyStr args.after) = false := by
      rw [hf]
      rfl
    rw [if_neg (by simp [hg1]), if_pos hm, attachCursorWhere_wheres]
    have hop : (if args.reverse then CmpOp.gt else CmpOp.lt) =
        specCursorOp args := by
      unfold specCursorOp
      rw [hf]
      simp
    rw [hop, specCursorPredicate_eq_brackets]

/-- Claim C2: for every `paginate` call that supplies a cursor, the
predicate added to the query is exactly the spec's predicate — operator
per the mode × reverse table, the decoded cursor split on `|` into
primary/secondary bounds with the tie-break disjunct when the sort column
is not `id` — and it is combined with the query's pre-existing WHERE
clauses by conjunction. -/
theorem cursor_where_clause_shape (qb : QB) (args : PaginationArgs)
    (cursorColumn : String) (c : Cursor)
    (hc : cursorOf args cursorColumn = some c) :
    ∃ qb', getCursorWhereClause qb c (columnIdOf cursorColumn) args =
        .ok qb'
      ∧ qb'.wheres = qb.wheres ++
          [specCursorPredicate args (columnIdOf cursorColumn) c.decode]
      ∧ ∀ r, qb'.evalWheres r = (qb.evalWheres r &&
          evalWherePred
            (specCursorPredicate args (columnIdOf cursorColumn) c.decode)
            r) := by
  have hm := cursorOf_some_mode args cursorColumn c hc
  refine ⟨_, getCursorWhereClause_eq qb c (columnIdOf cursorColumn) args hm,
    rfl, ?_⟩
  intro r
  simp [QB.evalWheres, List.all_append]

theorem cursor_where_clause_shape_witness :
    (getCursorWhereClause ⟨[], [], [], none⟩ ⟨"MQ==", "id"⟩
        (columnIdOf "id") ⟨some "MQ==", none, some 1, none, false⟩).isOk
      = true := by
  obtain ⟨qb', heq, -, -⟩ := cursor_where_clause_shape ⟨[], [], [], none⟩
    ⟨some "MQ==", none, some 1, none, false⟩ "id" ⟨"MQ==", "id"⟩ (by rfl)
  rw [heq]
  rfl

/-- The window query always builds: the only `throw` in
`getCursorWhereClause` is unreachable because a cursor is only
constructed under a matching mode pairing. -/
theorem buildWindowQuery_ok (query : QB) (args : PaginationArgs)
    (cursorColumn : String) :
    ∃ q, buildWindowQuery query args cursorColumn = .ok q := by
  unfold buildWindowQuery
  cases hcur : cursorOf args cursorColumn with
  | none => exact ⟨_, rfl⟩
  | some c =>
    dsimp only
    rw [getCursorWhereClause_eq _ c (columnIdOf cursorColumn) args
      (cursorOf_some_mode args cursorColumn c hcur)]
    exact ⟨_, rfl⟩

/-- `windowRows` never fails. -/
theorem windowRows_ok (query : QB) (args : PaginationArgs)
    (cursorColumn : String) :
    ∃ rows, windowRows query args cursorColumn = .ok rows := by
  obtain ⟨q, hq⟩ := buildWindowQuery_ok query args cursorColumn
  unfold windowRows
  rw [hq]
  exact ⟨_, rfl⟩

/-- `paginate` never fails. -/
theorem paginate_isOk (query : QB) (args : PaginationArgs)
    (cursorColumn : String) :
    (paginate query args cursorColumn).isOk = true := by
  obtain ⟨rows, hw⟩ := windowRows_ok query args cursorColumn
  unfold paginate
  rw [hw]
  rfl

/-- Claim C3 (contradicted by the code): `paginate` performs no argument
validation at all — it never raises, for any combination of `first`,
`last`, `after` and `before`; in particular `paginate(qb, {first: 2,
last: 2})` resolves normally (forward mode wins, yet the fetched rows are
still reversed because `last` is truthy), where the repo's own test
expects a rejection. -/
theorem paginate_no_validation :
    (∀ (query : QB) (args : PaginationArgs) (cursorColumn : String),
        (paginate query args cursorColumn).isOk = true)
      ∧ paginate ⟨[⟨"1", []⟩, ⟨"2", []⟩, ⟨"3", []⟩], [], [], none⟩
          ⟨none, none, some 2, some 2, false⟩ "id" =
        .ok { edges := [⟨⟨"2", []⟩, "Mg=="⟩, ⟨⟨"1", []⟩, "MQ=="⟩],
              pageInfo := ⟨some "Mg==", some "MQ==", true, true⟩,
              totalCount := 5 } := by
  constructor
  · intro query args cursorColumn
    exact paginate_isOk query args cursorColumn
  · rfl

/-- Claim C4 counterexample: with `last = 0` (set, but falsy) and
`reverse = false`, `paginate` resolves the order ascending — not
descending as the claim's backward branch states — because the branch
tests truthiness, not presence. -/
theorem resolvedOrder_last_zero_asc :
    resolvedOrder ⟨none, none, none, some 0, false⟩ = SortOrder.asc
      ∧ SortOrder.asc ≠ SortOrder.desc := by
  exact ⟨rfl, by simp⟩

/-- Claim C4 as amended: the branches are chosen by truthiness.  With a
truthy `first` the window is `first` and the order ascending unless
`reverse`; with `first` falsy and `last` truthy the window is `last` and
the order descending unless `reverse`; with both falsy the window is
`first ?? last ?? 25` (so `0` when either is set to `0`, `25` when both
are absent) and the order ascending unless `reverse`.  The row limit of
the executed window query is exactly this window size. -/
theorem resolved_window_amended (args : PaginationArgs) (query : QB)
    (cursorColumn : String) (q : QB)
    (hq : buildWindowQuery query args cursorColumn = .ok q) :
    (jsTruthyNat args.first = true →
        resolvedLimit args = args.first.getD 0
          ∧ resolvedOrder args =
              (if args.reverse then SortOrder.desc else SortOrder.asc))
      ∧ (jsTruthyNat args.first = false → jsTruthyNat args.last = true →
          resolvedLimit args = args.last.getD 0
            ∧ resolvedOrder args =
                (if args.reverse then SortOrder.asc else SortOrder.desc))
      ∧ (jsTruthyNat args.first = false → jsTruthyNat args.last = false →
          resolvedLimit args =
              (match args.first with
                | some n => n
                | none =>
                  match args.last with
                  | some m => m
                  | none => 25)
            ∧ resolvedOrder args =
                (if args.reverse then SortOrder.desc else SortOrder.asc))
      ∧ q.takeN = some (resolvedLimit args) := by
  refine ⟨?_, ?_, ?_, ?_⟩
  · intro h1
    unfold resolvedLimit resolvedOrder
    rw [h1]
    simp
  · intro h1 h2
    unfold resolvedLimit resolvedOrder
    rw [h1, h2]
    simp
  · intro h1 h2
    unfold resolvedLimit resolvedOrder
    rw [h1, h2]
    simp
  · unfold buildWindowQuery at hq
    cases hcur : cursorOf args cursorColumn with
    | none =>
      rw [hcur] at hq
      dsimp only at hq
      cases hq
      rfl
    | some c =>
      rw [hcur] at hq
      dsimp only at hq
      rw [getCursorWhereClause_eq _ c (columnIdOf cursorColumn) args
        (cursorOf_some_mode args cursorColumn c hcur)] at hq
      cases hq
      rfl

theorem resolved_window_amended_witness :
    resolvedLimit ⟨none, none, some 2, none, false⟩ = 2
      ∧ resolvedOrder ⟨none, none, some 2, none, false⟩ = SortOrder.asc
      ∧ (QB.mk [] [] [("id", SortOrder.asc)] (some 2)).takeN = some 2 := by
  have h := resolved_window_amended ⟨none, none, some 2, none, false⟩
    ⟨[], [], [], none⟩ "id" ⟨[], [], [("id", SortOrder.asc)], some 2⟩
    (by rfl)
  have h1 := h.1 (by rfl)
  exact ⟨h1.1, h1.2, h.2.2.2⟩

/-- Claim C10: with `first = 0` the forward branch is skipped, the
nullish-coalescing initial limit `0` (not the default 25) is applied as
the row limit, a simultaneously supplied `after` cursor is silently
ignored — no cursor predicate, no error — and symmetrically for
`last = 0` with `before`. -/
theorem paginate_zero_first_last (query : QB) (cursorColumn : String)
    (a b : String) (rev : Bool) :
    (resolvedLimit ⟨some a, none, some 0, none, rev⟩ = 0
      ∧ cursorOf ⟨some a, none, some 0, none, rev⟩ cursorColumn = none
      ∧ (∃ q, buildWindowQuery query ⟨some a, none, some 0, none, rev⟩
            cursorColumn = .ok q
          ∧ q.wheres = query.wheres ∧ q.takeN = some 0)
      ∧ (paginate query ⟨some a, none, some 0, none, rev⟩
          cursorColumn).isOk = true)
  ∧ (resolvedLimit ⟨none, some b, none, some 0, rev⟩ = 0
      ∧ cursorOf ⟨none, some b, none, some 0, rev⟩ cursorColumn = none
      ∧ (∃ q, buildWindowQuery query ⟨none, some b, none, some 0, rev⟩
            cursorColumn = .ok q
          ∧ q.wheres = query.wheres ∧ q.takeN = some 0)
      ∧ (paginate query ⟨none, some b, none, some 0, rev⟩
          cursorColumn).isOk = true) := by
  constructor
  · refine ⟨rfl, rfl, ?_, paginate_isOk _ _ _⟩
    unfold buildWindowQuery
    dsimp only
    by_cases hid : columnIdOf cursorColumn ≠ "id"
    · rw [if_pos hid]
      exact ⟨_, rfl, rfl, rfl⟩
    · rw [if_neg hid]
      exact ⟨_, rfl, rfl, rfl⟩
  · refine ⟨rfl, rfl, ?_, paginate_isOk _ _ _⟩
    unfold buildWindowQuery
    dsimp only
    by_cases hid : columnIdOf cursorColumn ≠ "id"
    · rw [if_pos hid]
      exact ⟨_, rfl, rfl, rfl⟩
    · rw [if_neg hid]
      exact ⟨_, rfl, rfl, rfl⟩

/-! ## Filter expression compiler (`lib/query-builder/`)

`WhereBuilder` and `JoinBuilder` consume `FiltersExpression` trees whose
leaf values are arbitrary JavaScript values; `FilterValue` models the
value universe with JS truthiness, `.length` access and string coercion.
The `BETWEEN` member appears in the `where-builder.ts` switch (and in the
README's operator table) alongside the members of
`comparison-operator.enum.ts`. -/

inductive ComparisonOperatorEnum where
  | ANY
  | BETWEEN
  | CONTAINS
  | EQUAL
  | GREATER_THAN
  | GREATER_THAN_OR_EQUAL
  | IN
  | LESS_THAN
  | LESS_THAN_OR_EQUAL
  | ILIKE
  | LIKE
  | NOT
  | NOT_IN
  | NOT_LIKE
  | OVERLAP
deriving DecidableEq

inductive LogicalOperatorEnum where
  | AND
  | OR
deriving DecidableEq

/-- The TS enum's string value, as interpolated into the SQL text. -/
def LogicalOperatorEnum.value : LogicalOperatorEnum → String
  | .AND => "and"
  | .OR => "or"

/-- A JavaScript value in a filter leaf. -/
inductive FilterValue where
  | vstr (s : String)
  | vnum (n : Int)
  | vbool (b : Bool)
  | varr (l : List FilterValue)
  | vnull
  | vundefined

/-- JS truthiness. -/
def FilterValue.truthy : FilterValue → Bool
  | .vstr s => s ≠ ""
  | .vnum n => n ≠ 0
  | .vbool b => b
  | .varr _ => true
  | .vnull => false
  | .vundefined => false

/-- JS `.length`: defined for strings and arrays, `undefined` elsewhere. -/
def FilterValue.jsLength : FilterValue → Option Nat
  | .vstr s => some s.length
  | .varr l => some l.length
  | _ => none

/-- JS string coercion, as in a template literal. -/
def FilterValue.jsStr : FilterValue → String
  | .vstr s => s
  | .vnum n => toString n
  | .vbool b => if b then "true" else "false"
  | .vnull => "null"
  | .vundefined => "undefined"
  | .varr _ => ""

/-- JS indexing `value[i]` (`undefined` off the end or on non-arrays;
string indexing yields the one-character string). -/
def FilterValue.jsIndex : FilterValue → Nat → FilterValue
  | .varr l, i => l.getD i .vundefined
  | .vstr s, i =>
    match s.data.get? i with
    | some c => .vstr (String.singleton c)
    | none => .vundefined
  | _, _ => .vundefined

/-- `isEmptyValue` (`lib/query-builder/is-empty-value.ts`): null,
undefined, the empty array and the empty string are empty; numbers
(including 0) and everything else are valid values. -/
def isEmptyValue : FilterValue → Bool
  | .vnull => true
  | .vundefined => true
  | .varr l => l.length = 0
  | .vstr s => s.length = 0
  | _ => false

/-- The `WhereBuilder` filter-retention check
`(f) => f.value && f.value.length > 0`: the value must be truthy AND its
`.length` must exceed 0 (`undefined > 0` is false, so numbers and
booleans never pass). -/
def jsKeepFilter (v : FilterValue) : Bool :=
  v.truthy && (match v.jsLength with
    | some n => decide (n > 0)
    | none => false)

/-- A leaf filter (`FilterInput`). -/
structure FilterInput where
  field : String
  operator : ComparisonOperatorEnum
  value : FilterValue := .vundefined
  relationField : Option String := none

/-- A `FiltersExpression` tree node: logical operator, leaf filters,
child subtrees (absent optional arrays are the empty list, matching the
`?? []` readers). -/
inductive FiltersExpression where
  | mk (operator : Option LogicalOperatorEnum)
       (filters : List FilterInput)
       (childExpressions : List FiltersExpression)

def FiltersExpression.operator : FiltersExpression →
    Option LogicalOperatorEnum
  | .mk op _ _ => op

def FiltersExpression.filters : FiltersExpression → List FilterInput
  | .mk _ fs _ => fs

def FiltersExpression.childExpressions : FiltersExpression →
    List FiltersExpression
  | .mk _ _ cs => cs

/-! ### `WhereBuilder` (`lib/query-builder/where-builder.ts`) -/

/-- The builder's mutable state: the parameter map (an insertion-ordered
association list) and the parameter counter. -/
structure WBState where
  params : List (String × FilterValue) := []
  paramsCount : Nat := 0

/-- `WhereBuilder.buildFilter`: allocate `${field}_${++count}`, emit the
operator's SQL fragment and bind the parameter(s).  For `BETWEEN` the
second binding is `params[paramName + 1]` — JavaScript *string*
concatenation of the parameter name and the number `1`.  Unknown
operators throw. -/
def buildFilter (st : WBState) (f : FilterInput) :
    Except String (Option String × WBState) :=
  if !f.value.truthy || f.value.jsLength = some 0 then .ok (none, st)
  else
    let paramsCount := st.paramsCount + 1
    let paramName := f.field ++ "_" ++ toString paramsCount
    match f.operator with
    | .EQUAL =>
      .ok (some (f.field ++ " = :" ++ paramName),
        ⟨st.params ++ [(paramName, f.value)], paramsCount⟩)
    | .BETWEEN =>
      .ok (some (f.field ++ " BETWEEN :" ++ paramName ++ " AND :" ++
          (paramName ++ "1")),
        ⟨st.params ++ [(paramName, f.value.jsIndex 0),
          (paramName ++ "1", f.value.jsIndex 1)], paramsCount⟩)
    | .IN =>
      .ok (some (f.field ++ " IN (:..." ++ paramName ++ ")"),
        ⟨st.params ++ [(paramName, f.value)], paramsCount⟩)
    | .ILIKE =>
      .ok (some (f.field ++ " ILIKE :" ++ paramName),
        ⟨st.params ++ [(paramName, .vstr ("%" ++ f.value.jsStr ++ "%"))],
          paramsCount⟩)
    | .LIKE =>
      .ok (some (f.field ++ " LIKE :" ++ paramName),
        ⟨st.params ++ [(paramName, .vstr ("%" ++ f.value.jsStr ++ "%"))],
          paramsCount⟩)
    | .GREATER_THAN =>
      .ok (some (f.field ++ " > :" ++ paramName),
        ⟨st.params ++ [(paramName, f.value)], paramsCount⟩)
    | .GREATER_THAN_OR_EQUAL =>
      .ok (some (f.field ++ " >= :" ++ paramName),
        ⟨st.params ++ [(paramName, f.value)], paramsCount⟩)
    | .LESS_THAN =>
      .ok (some (f.field ++ " < :" ++ paramName),
        ⟨st.params ++ [(paramName, f.value)], paramsCount⟩)
    | .LESS_THAN_OR_EQUAL =>
      .ok (some (f.field ++ " <= :" ++ paramName),
        ⟨st.params ++ [(paramName, f.value)], paramsCount⟩)
    | .NOT =>
      .ok (some (f.field ++ " != :" ++ paramName),
        ⟨st.params ++ [(paramName, f.value)], paramsCount⟩)
    | _ => .error "Unknown filter operation"

/-- `buildFilter` mapped over the retained filters, threading the
builder state. -/
def buildFilterList : List FilterInput → WBState →
    Except String (List String × WBState)
  | [], st => .ok ([], st)
  | f :: fs, st =>
    match buildFilter st f with
    | .error e => .error e
    | .ok (s, st') =>
      match buildFilterList fs st' with
      | .error e => .error e
      | .ok (ss, st'') => .ok (s.getD "" :: ss, st'')

mutual

def buildExpressionRec (fe : FiltersExpression) (st : WBState) :
    Except String (String × WBState) :=
  match fe with
  | .mk op fs cs =>
    match buildFilterList (fs.filter (fun f => jsKeepFilter f.value)) st with
    | .error e => .error e
    | .ok (filterStrs, st1) =>
      match buildExpressionList cs st1 with
      | .error e => .error e
      | .ok (childStrs, st2) =>
        let allSqlBlocks := filterStrs ++ childStrs
        let sep := " " ++ (match op with
          | some o => o.value
          | none => "undefined") ++ " "
        let sqLExpr := String.intercalate sep allSqlBlocks
        .ok (if sqLExpr = "" then "" else "(" ++ sqLExpr ++ ")", st2)

def buildExpressionList (cs : List FiltersExpression) (st : WBState) :
    Except String (List String × WBState) :=
  match cs with
  | [] => .ok ([], st)
  | c :: cs' =>
    match buildExpressionRec c st with
    | .error e => .error e
    | .ok (s, st') =>
      match buildExpressionList cs' st' with
      | .error e => .error e
      | .ok (ss, st'') => .ok (s :: ss, st'')

end

/-- `WhereBuilder.build`: no-op without an expression, otherwise compile
the tree from a fresh state and apply text + parameter map in one
`where` call. -/
def whereBuilderBuild (fe : Option FiltersExpression) :
    Except String (Option (String × List (String × FilterValue))) :=
  match fe with
  | none => .ok none
  | some f =>
    match buildExpressionRec f ⟨[], 0⟩ with
    | .error e => .error e
    | .ok (s, st) => .ok (some (s, st.params))

/-- Claim C7, evaluated (the BETWEEN half fails on the code): the
single-leaf EQUAL scenario does compile to `(User.name = :User.name_1)`
with parameter map `{User.name_1: John}`; but a BETWEEN leaf binds its
second parameter under `paramName + 1` — JavaScript string concatenation
of the first parameter name and the number `1` — producing
`Order.total_11` without advancing the counter, not the counter-suffixed
`Order.total_2` that the claim states and the repo's
filter-query-builder tests assert. -/
theorem where_builder_param_names :
    buildExpressionRec
        (.mk (some .AND) [⟨"User.name", .EQUAL, .vstr "John", none⟩] [])
        ⟨[], 0⟩ =
      .ok ("(User.name = :User.name_1)", ⟨[("User.name_1", .vstr "John")], 1⟩)
  ∧ buildExpressionRec
        (.mk (some .AND)
          [⟨"Order.total", .BETWEEN, .varr [.vnum 100, .vnum 500], none⟩] [])
        ⟨[], 0⟩ =
      .ok ("(Order.total BETWEEN :Order.total_1 AND :Order.total_11)",
        ⟨[("Order.total_1", .vnum 100), ("Order.total_11", .vnum 500)], 1⟩)
  ∧ ("Order.total_11" : String) ≠ "Order.total_2" := by
  refine ⟨rfl, rfl, by decide⟩

/-- Claim C8, evaluated (fails on the code for numbers and booleans):
the retention check `value && value.length > 0` drops every numeric and
boolean leaf because their `.length` is `undefined`, while the repo's
`isEmptyValue` (and the claim) treat them as valid values: a
`Profile.age > 18` leaf and a `Profile.verified = true` leaf contribute
no condition text and no parameter. -/
theorem where_builder_skips_numbers :
    isEmptyValue (.vnum 18) = false
  ∧ isEmptyValue (.vbool true) = false
  ∧ jsKeepFilter (.vnum 18) = false
  ∧ jsKeepFilter (.vbool true) = false
  ∧ buildExpressionRec
        (.mk (some .AND) [⟨"Profile.age", .GREATER_THAN, .vnum 18, none⟩] [])
        ⟨[], 0⟩ = .ok ("", ⟨[], 0⟩)
  ∧ buildExpressionRec
        (.mk (some .AND)
          [⟨"Profile.verified", .EQUAL, .vbool true, none⟩] [])
        ⟨[], 0⟩ = .ok ("", ⟨[], 0⟩) :=
  ⟨rfl, rfl, rfl, rfl, rfl, rfl⟩

/-! ### `JoinBuilder` (`lib/query-builder/join-builder.ts`) -/

/-- The builder's state: the set of already-joined entity aliases and
the emitted `leftJoinAndSelect(relationField, entityName)` calls. -/
structure JBState where
  joinedEntities : List String := []
  joins : List (String × String) := []
deriving DecidableEq

/-- `JoinBuilder.addJoinEntity`: derive the alias from the text before
the first `.` of `field`; throw when it is empty; join once per alias,
only for leaves carrying a (truthy) `relationField`. -/
def addJoinEntity (st : JBState) (field : String)
    (relationField : Option String) : Except String JBState :=
  let entityName := (jsSplit field '.').getD 0 ""
  if entityName = "" then .error "Entity name is required"
  else if jsTruthyStr relationField ∧ entityName ∉ st.joinedEntities then
    .ok ⟨st.joinedEntities ++ [entityName],
      st.joins ++ [(relationField.getD "", entityName)]⟩
  else .ok st

/-- `addJoinEntity` folded over leaf filters. -/
def joinFilters : List FilterInput → JBState → Except String JBState
  | [], st => .ok st
  | f :: fs, st =>
    match addJoinEntity st f.field f.relationField with
    | .error e => .error e
    | .ok st' => joinFilters fs st'

mutual

/-- `JoinBuilder.buildJoinEntitiesRec`: visit the node's leaf filters,
then recurse into its child expressions. -/
def buildJoinRec (fe : FiltersExpression) (st : JBState) :
    Except String JBState :=
  match fe with
  | .mk _ fs cs =>
    match joinFilters fs st with
    | .error e => .error e
    | .ok st1 => joinChildren cs st1

def joinChildren (cs : List FiltersExpression) (st : JBState) :
    Except String JBState :=
  match cs with
  | [] => .ok st
  | c :: cs' =>
    match buildJoinRec c st with
    | .error e => .error e
    | .ok st' => joinChildren cs' st'

end

/-- `JoinBuilder.build`: no-op without an expression. -/
def joinBuilderBuild (fe : Option FiltersExpression) :
    Except String JBState :=
  match fe with
  | none => .ok ⟨[], []⟩
  | some f => buildJoinRec f ⟨[], []⟩

mutual

/-- The leaf filters of a tree in traversal order. -/
def leavesOf : FiltersExpression → List FilterInput
  | .mk _ fs cs => fs ++ leavesOfList cs

def leavesOfList : List FiltersExpression → List FilterInput
  | [] => []
  | c :: cs => leavesOf c ++ leavesOfList cs

end

theorem joinFilters_append (xs ys : List FilterInput) (st : JBState) :
    joinFilters (xs ++ ys) st =
      match joinFilters xs st with
      | .error e => .error e
      | .ok st' => joinFilters ys st' := by
  induction xs generalizing st with
  | nil => rfl
  | cons f fs ih =>
    rw [List.cons_append, joinFilters, joinFilters]
    cases addJoinEntity st f.field f.relationField with
    | error e => rfl
    | ok st' => exact ih st'

/-- The recursive traversal equals the fold of `addJoinEntity` over the
leaves in traversal order. -/
theorem buildJoinRec_eq_leaves_aux (n : Nat) :
    (∀ fe : FiltersExpression, sizeOf fe < n → ∀ st,
        buildJoinRec fe st = joinFilters (leavesOf fe) st)
    ∧ (∀ cs : List FiltersExpression, sizeOf cs < n → ∀ st,
        joinChildren cs st = joinFilters (leavesOfList cs) st) := by
  induction n using Nat.strong_induction_on with
  | _ n ih =>
    constructor
    · intro fe hfe st
      match fe with
      | .mk op fs cs =>
        rw [buildJoinRec, leavesOf, joinFilters_append]
        cases joinFilters fs st with
        | error e => rfl
        | ok st1 =>
          have hcs : sizeOf cs < sizeOf (FiltersExpression.mk op fs cs) := by
            simp
          exact (ih (sizeOf (FiltersExpression.mk op fs cs)) hfe).2 cs hcs st1
    · intro cs hcs st
      match cs with
      | [] => rfl
      | c :: cs' =>
        rw [joinChildren, leavesOfList, joinFilters_append]
        have hc : sizeOf c < sizeOf (c :: cs') := by
          simp
          omega
        rw [(ih (sizeOf (c :: cs')) hcs).1 c hc st]
        cases joinFilters (leavesOf c) st with
        | error e => rfl
        | ok st' =>
          have hcs' : sizeOf cs' < sizeOf (c :: cs') := by
            simp
          exact (ih (sizeOf (c :: cs')) hcs).2 cs' hcs' st'

theorem buildJoinRec_eq_leaves (fe : FiltersExpression) (st : JBState) :
    buildJoinRec fe st = joinFilters (leavesOf fe) st :=
  (buildJoinRec_eq_leaves_aux (sizeOf fe + 1)).1 fe (by omega) st

/-- The join-builder invariant: emitted aliases are pairwise distinct
and recorded in the joined-entities set. -/
def JBInv (st : JBState) : Prop :=
  (st.joins.map Prod.snd).Nodup
    ∧ ∀ a ∈ st.joins.map Prod.snd, a ∈ st.joinedEntities

theorem addJoinEntity_inv (st : JBState) (field : String)
    (rf : Option String) (st' : JBState) (hinv : JBInv st)
    (h : addJoinEntity st field rf = .ok st') : JBInv st' := by
  unfold addJoinEntity at h
  by_cases he : (jsSplit field '.').getD 0 "" = ""
  · rw [if_pos he] at h
    exact absurd h (by simp)
  · rw [if_neg he] at h
    by_cases hj : jsTruthyStr rf = true
        ∧ (jsSplit field '.').getD 0 "" ∉ st.joinedEntities
    · rw [if_pos hj] at h
      cases h
      obtain ⟨hnd, hsub⟩ := hinv
      constructor
      · simp only [List.map_append, List.map_cons, List.map_nil]
        rw [List.nodup_append]
        refine ⟨hnd, List.nodup_singleton _, ?_⟩
        intro a ha hb
        simp only [List.mem_singleton] at hb
        subst hb
        exact hj.2 (hsub _ ha)
      · intro a ha
        simp only [List.map_append, List.map_cons, List.map_nil,
          List.mem_append, List.mem_singleton] at ha
        rcases ha with ha | ha
        · exact List.mem_append_left _ (hsub _ ha)
        · subst ha
          exact List.mem_append_right _ (by simp)
    · rw [if_neg hj] at h
      cases h
      exact hinv

theorem joinFilters_inv (fs : List FilterInput) (st st' : JBState)
    (hinv : JBInv st) (h : joinFilters fs st = .ok st') : JBInv st' := by
  induction fs generalizing st with
  | nil =>
    rw [joinFilters] at h
    cases h
    exact hinv
  | cons f fs ih =>
    rw [joinFilters] at h
    cases hstep : addJoinEntity st f.field f.relationField with
    | error e =>
      rw [hstep] at h
      exact absurd h (by simp)
    | ok st1 =>
      rw [hstep] at h
      exact ih st1 (addJoinEntity_inv st f.field f.relationField st1
        hinv hstep) h

theorem addJoinEntity_empty (st : JBState) (field : String)
    (rf : Option String) (h : (jsSplit field '.').getD 0 "" = "") :
    addJoinEntity st field rf = .error "Entity name is required" := by
  unfold addJoinEntity
  rw [if_pos h]

theorem addJoinEntity_ok (st : JBState) (field : String)
    (rf : Option String) (h : (jsSplit field '.').getD 0 "" ≠ "") :
    ∃ st', addJoinEntity st field rf = .ok st' := by
  unfold addJoinEntity
  rw [if_neg h]
  by_cases hj : jsTruthyStr rf = true
      ∧ (jsSplit field '.').getD 0 "" ∉ st.joinedEntities
  · rw [if_pos hj]
    exact ⟨_, rfl⟩
  · rw [if_neg hj]
    exact ⟨_, rfl⟩

theorem joinFilters_error_of_mem (fs : List FilterInput) (st : JBState)
    (f : FilterInput) (hf : f ∈ fs)
    (he : (jsSplit f.field '.').getD 0 "" = "") :
    joinFilters fs st = .error "Entity name is required" := by
  induction fs generalizing st with
  | nil => exact absurd hf (by simp)
  | cons g gs ih =>
    rw [joinFilters]
    by_cases hg : (jsSplit g.field '.').getD 0 "" = ""
    · rw [addJoinEntity_empty st g.field g.relationField hg]
    · obtain ⟨st1, hok⟩ := addJoinEntity_ok st g.field g.relationField hg
      rw [hok]
      have hfgs : f ∈ gs := by
        rcases List.mem_cons.mp hf with rfl | hmem
        · exact absurd he hg
        · exact hmem
      exact ih st1 hfgs

/-- Claim C9: the join builder emits at most one JOIN per distinct
entity alias (the text before the first `.` of a leaf's `field`), no
matter how many leaves carrying a `relationField` reference it anywhere
in the tree, and it fails with an error when any leaf's `field` has no
extractable entity-alias prefix. -/
theorem join_builder_dedup_and_error :
    (∀ (fe : FiltersExpression) (st' : JBState),
        buildJoinRec fe ⟨[], []⟩ = .ok st' →
          (st'.joins.map Prod.snd).Nodup)
  ∧ (∀ (fe : FiltersExpression) (f : FilterInput),
        f ∈ leavesOf fe → (jsSplit f.field '.').getD 0 "" = "" →
          buildJoinRec fe ⟨[], []⟩ = .error "Entity name is required") := by
  constructor
  · intro fe st' h
    rw [buildJoinRec_eq_leaves] at h
    exact (joinFilters_inv (leavesOf fe) ⟨[], []⟩ st'
      ⟨List.nodup_nil, by simp⟩ h).1
  · intro fe f hf he
    rw [buildJoinRec_eq_leaves]
    exact joinFilters_error_of_mem (leavesOf fe) ⟨[], []⟩ f hf he

theorem join_builder_dedup_and_error_witness :
    ((JBState.mk ["Profile"] [("User.profile", "Profile")]).joins.map
        Prod.snd).Nodup
  ∧ buildJoinRec
        (.mk (some .AND) [⟨"", .EQUAL, .vstr "x", some "User.profile"⟩] [])
        ⟨[], []⟩ = .error "Entity name is required" := by
  constructor
  · exact join_builder_dedup_and_error.1
      (.mk (some .AND)
        [⟨"Profile.verified", .EQUAL, .vbool true, some "User.profile"⟩,
          ⟨"Profile.active", .EQUAL, .vbool true, some "User.profile"⟩] [])
      ⟨["Profile"], [("User.profile", "Profile")]⟩ (by rfl)
  · exact join_builder_dedup_and_error.2
      (.mk (some .AND) [⟨"", .EQUAL, .vstr "x", some "User.profile"⟩] [])
      ⟨"", .EQUAL, .vstr "x", some "User.profile"⟩
      (by simp [leavesOf, leavesOfList]) (by rfl)
